import Mathlib

/-!
Shallow embedding of the protocol-abstraction core of
`src/app_rust/src/commapi/protocols/mod.rs` (OpenVehicleDiag).

Bytes are modelled as `Nat`; the one place the source performs 8-bit
arithmetic that can overflow (`cmd + 0x40`) is modelled with an explicit
`% 256`.  Fallible transport operations return `Except ComServerError _`.
The effectful `run_command_resp` is embedded as a pure function over an
explicit transport environment; it additionally returns the ordered list
of transport calls it performed, so that "how many times did it wait"
properties are statable.  An out-of-range `Vec` index (a Rust panic) is a
distinct outcome `RunResult.panic`.
-/

/-- Modelled from the spec: per-message payload flag from the out-of-scope
`iface` module; its internal structure is irrelevant to the core, only
that flags can be cloned into the outgoing payload. -/
def PayloadFlag := Nat
deriving DecidableEq, Repr

/-- Modelled from the spec: the transport failure type of the out-of-scope
comm layer; it carries (at least) its own display text. -/
structure ComServerError where
  err_desc : String
deriving DecidableEq, Repr

/-- Modelled from the spec: the transport failure's own display/message
text (`e.to_string()` in the source). -/
def ComServerError.to_string (e : ComServerError) : String := e.err_desc

/-- Modelled from the spec: an `InterfacePayload` / response frame carries
an address id, a byte sequence and per-message flags. -/
structure InterfacePayload where
  id : Nat
  data : List Nat
  flags : List PayloadFlag
deriving DecidableEq, Repr

/-- Modelled from the spec: `InterfacePayload::new(id, data)` builds a
payload with no flags set (the caller may overwrite `flags` afterwards,
as `run_command_resp` does). -/
def InterfacePayload.new (id : Nat) (data : List Nat) : InterfacePayload :=
  { id := id, data := data, flags := [] }

/-- The `CommandError` trait: decodes a single negative-response byte into
a description and an optional remediation hint; `from_byte` is total. -/
class CommandError (E : Type) where
  get_desc : E → String
  get_help : E → Option String
  from_byte : Nat → E

/-- The `ProtocolError` enum, parameterised by the protocol's concrete
`CommandError` type (standing for the boxed `dyn CommandError`). -/
inductive ProtocolError (E : Type) where
  | CommError : ComServerError → ProtocolError E
  | ProtocolError : E → ProtocolError E
  | CustomError : String → ProtocolError E
  | InvalidResponseSize : Nat → Nat → ProtocolError E
  | Timeout : ProtocolError E
deriving DecidableEq, Repr

/-- Alias for the error type, usable inside the `ProtocolError` namespace
where the bare name would resolve to the homonymous constructor. -/
abbrev ProtocolErrorT (E : Type) : Type := ProtocolError E

/-- The source's `is_timeout` match. -/
def ProtocolError.is_timeout {E : Type} : ProtocolErrorT E → Bool
  | .CommError _ => false
  | .ProtocolError _ => false
  | .CustomError _ => false
  | .InvalidResponseSize _ _ => false
  | .Timeout => true

/-- The `impl From<ComServerError> for ProtocolError` conversion. -/
def ProtocolError.fromComServerError {E : Type} (x : ComServerError) : ProtocolErrorT E :=
  .CommError x

/-- The source's `get_text` match, rendering every variant. -/
def ProtocolError.get_text {E : Type} [CommandError E] : ProtocolErrorT E → String
  | .CommError e => e.to_string
  | .ProtocolError e => CommandError.get_desc e
  | .Timeout => "Communication timeout"
  | .CustomError s => s
  | .InvalidResponseSize expect actual =>
      "Expected " ++ toString expect ++ " bytes, got " ++ toString actual ++ " bytes"

/-- The `CautionLevel` enum with its derived order. -/
inductive CautionLevel where
  | None
  | Warn
  | Alert
deriving DecidableEq, Repr

/-- The discriminant values (`None = 0, Warn = 1, Alert = 2`); the derived
Rust `Ord` compares by discriminant. -/
def CautionLevel.toNat : CautionLevel → Nat
  | CautionLevel.None => 0
  | CautionLevel.Warn => 1
  | CautionLevel.Alert => 2

/-- The `DTCState` enum. -/
inductive DTCState where
  | None
  | Stored
  | Pending
  | Permanent
deriving DecidableEq, Repr

/-- Debug rendering of a `DTCState` (Rust `{:?}`). -/
def DTCState.debugStr : DTCState → String
  | DTCState.None => "None"
  | DTCState.Stored => "Stored"
  | DTCState.Pending => "Pending"
  | DTCState.Permanent => "Permanent"

/-- The `DTC` struct. -/
structure DTC where
  error : String
  state : DTCState
  check_engine_on : Bool
  id : Nat
deriving DecidableEq, Repr

/-- The `Display` impl for `DTC`. -/
def DTC.displayStr (d : DTC) : String :=
  d.error ++ " - State: " ++ d.state.debugStr ++ ", Check engine light on?: "
    ++ (if d.check_engine_on then "true" else "false")

/-- The `DiagCfg` struct. -/
structure DiagCfg where
  send_id : Nat
  recv_id : Nat
  global_id : Option Nat
deriving DecidableEq, Repr

/-- The `DiagProtocol` enum. -/
inductive DiagProtocol where
  | KWP2000
  | UDS
deriving DecidableEq, Repr

/-- Transport environment seen by `run_command_resp`: the three operations
the source calls on `Box<dyn Interface>`, as pure response functions
(argument shapes as in the source: frames+flags, frame+flags+timeout,
count+timeout). -/
structure Interface where
  send_data : List InterfacePayload → Nat → Except ComServerError Unit
  send_recv_data : InterfacePayload → Nat → Nat → Except ComServerError InterfacePayload
  recv_data : Nat → Nat → Except ComServerError (List InterfacePayload)

/-- Record of one transport call performed by `run_command_resp`, in the
order the source performs them. -/
inductive TransportCall where
  | send_data : List InterfacePayload → Nat → TransportCall
  | send_recv_data : InterfacePayload → Nat → Nat → TransportCall
  | recv_data : Nat → Nat → TransportCall
deriving DecidableEq, Repr

/-- Outcome of `run_command_resp`: success bytes, a `ProtocolError`, or a
Rust panic caused by an out-of-range `Vec` index. -/
inductive RunResult (E : Type) where
  | ok : List Nat → RunResult E
  | err : ProtocolError E → RunResult E
  | panic : RunResult E
deriving DecidableEq, Repr

/-- The outgoing frame built by `run_command_resp`: data `[cmd] ++ args`,
the caller's `send_id`, and the caller-supplied flags if any. -/
def build_tx (flags : Option (List PayloadFlag)) (send_id : Nat) (cmd : Nat)
    (args : List Nat) : InterfacePayload :=
  let tx0 := InterfacePayload.new send_id (cmd :: args)
  match flags with
  | some f => { tx0 with flags := f }
  | none => tx0

/-- The tail of `run_command_resp` after the pending-continuation block:
`res.data[0] == 0x7F` fails with the decoded NRC `res.data[2]`,
`res.data[0] == cmd + 0x40` (8-bit, wraparound) succeeds with the full
bytes, anything else is reported as `Timeout`.  Out-of-range indexing is
the `panic` outcome. -/
def checkResponse {E : Type} [CommandError E] (cmd : Nat) (res : InterfacePayload) :
    RunResult E :=
  match res.data[0]? with
  | none => RunResult.panic
  | some b0 =>
    if b0 = 0x7F then
      match res.data[2]? with
      | none => RunResult.panic
      | some b2 => RunResult.err (ProtocolError.ProtocolError (CommandError.from_byte b2))
    else if b0 = (cmd + 0x40) % 256 then
      RunResult.ok res.data
    else
      RunResult.err ProtocolError.Timeout

/-- The shared request/response algorithm `ProtocolServer::run_command_resp`,
instrumented with the ordered list of transport calls it performs.
It mirrors the source line by line: build `[cmd] ++ args`, apply flags;
fire-and-forget sends once; otherwise send-and-wait (2000 ms), run the
single response-pending continuation (`data[0] == 0x7F && data[2] == 0x78`,
with Rust short-circuit evaluation and unguarded indexing), then the
common checks of `checkResponse`. -/
def run_command_resp {E : Type} [CommandError E] (interface : Interface)
    (flags : Option (List PayloadFlag)) (send_id : Nat) (cmd : Nat)
    (args : List Nat) (receive_require : Bool) :
    RunResult E × List TransportCall :=
  let tx := build_tx flags send_id cmd args
  if !receive_require then
    match interface.send_data [tx] 0 with
    | Except.ok _ => (RunResult.ok [], [TransportCall.send_data [tx] 0])
    | Except.error e =>
        (RunResult.err (ProtocolError.CommError e), [TransportCall.send_data [tx] 0])
  else
    match interface.send_recv_data tx 0 2000 with
    | Except.error e =>
        (RunResult.err (ProtocolError.CommError e), [TransportCall.send_recv_data tx 0 2000])
    | Except.ok res₀ =>
      match res₀.data[0]? with
      | none => (RunResult.panic, [TransportCall.send_recv_data tx 0 2000])
      | some b0 =>
        if b0 = 0x7F then
          match res₀.data[2]? with
          | none => (RunResult.panic, [TransportCall.send_recv_data tx 0 2000])
          | some b2 =>
            if b2 = 0x78 then
              match interface.recv_data 1 2000 with
              | Except.ok data =>
                match data[0]? with
                | some d =>
                    (checkResponse cmd d,
                     [TransportCall.send_recv_data tx 0 2000, TransportCall.recv_data 1 2000])
                | none =>
                    (RunResult.err (ProtocolError.ProtocolError (CommandError.from_byte b2)),
                     [TransportCall.send_recv_data tx 0 2000, TransportCall.recv_data 1 2000])
              | Except.error e =>
                  (RunResult.err (ProtocolError.CommError e),
                   [TransportCall.send_recv_data tx 0 2000, TransportCall.recv_data 1 2000])
            else
              (checkResponse cmd res₀, [TransportCall.send_recv_data tx 0 2000])
        else
          (checkResponse cmd res₀, [TransportCall.send_recv_data tx 0 2000])

/-- Representative concrete `CommandError` implementor (the per-protocol
NRC decoders live outside the visible core); `from_byte` is total and
keeps the raw byte, as the capability interface requires. -/
structure GenericNRC where
  code : Nat
deriving DecidableEq, Repr

instance : CommandError GenericNRC where
  get_desc e := "NRC " ++ toString e.code
  get_help _ := none
  from_byte b := { code := b }

/-- Mock transport that answers every send-and-receive with `reply` and
every receive with `followups`. -/
def mockInterface (reply : InterfacePayload) (followups : List InterfacePayload) :
    Interface :=
  { send_data := fun _ _ => Except.ok ()
    send_recv_data := fun _ _ _ => Except.ok reply
    recv_data := fun _ _ => Except.ok followups }

/-- Mock transport whose sends fail with `e`. -/
def failingInterface (e : ComServerError) : Interface :=
  { send_data := fun _ _ => Except.error e
    send_recv_data := fun _ _ _ => Except.error e
    recv_data := fun _ _ => Except.error e }

example :
    (run_command_resp (E := GenericNRC) (mockInterface ⟨0, [0x62, 0xF1, 0x90], []⟩ [])
      none 0x7E0 0x22 [0xF1, 0x90] true).1 = RunResult.ok [0x62, 0xF1, 0x90] := by
  decide

example :
    (run_command_resp (E := GenericNRC)
      (mockInterface ⟨0, [0x7F, 0x10, 0x78], []⟩ [⟨0, [0x50, 0x10], []⟩])
      none 0x7E0 0x10 [] true).1 = RunResult.ok [0x50, 0x10] := by
  decide

example :
    (run_command_resp (E := GenericNRC) (mockInterface ⟨0, [0x51, 0x00], []⟩ [])
      none 0x7E0 0x3E [] true).1 = RunResult.err ProtocolError.Timeout := by
  decide

example :
    (run_command_resp (E := GenericNRC) (mockInterface ⟨0, [0x7F], []⟩ [])
      none 0x7E0 0x10 [] true).1 = RunResult.panic := by
  decide

/-- The body of `DiagServer::kill_diag_server`: it dispatches to the active
implementation's `exit_diag_session`, so each call performs exactly one
`exit_diag_session` invocation.  The argument threads the running count of
`exit_diag_session` invocations observed by the underlying session. -/
def kill_diag_server (exit_calls : Nat) : Nat := exit_calls + 1

/-- The body of `impl Drop for DiagServer`: it unconditionally calls
`kill_diag_server` (there is no already-closed flag). -/
def drop_diag_server (exit_calls : Nat) : Nat := kill_diag_server exit_calls

/-- Number of `exit_diag_session` invocations over a whole `DiagServer`
lifetime in which the caller explicitly calls `kill_diag_server` `k` times
and the value is then destroyed (Rust runs the `Drop` glue exactly once at
end of life on every exit path). -/
def lifetime_exit_calls (k : Nat) : Nat := drop_diag_server (Nat.iterate kill_diag_server k 0)

/-- C7: with `receive_require = false`, `run_command_resp` sends the frame
`[opcode] ++ args` exactly once (the transport trace is a single
`send_data` call, with no receive), returns `Ok` with the empty byte
sequence when the send succeeds, and returns `CommError` wrapping the
transport failure when the send fails. -/
theorem runCommandResp_fire_and_forget {E : Type} [CommandError E]
    (interface : Interface) (flags : Option (List PayloadFlag))
    (send_id cmd : Nat) (args : List Nat) :
    (build_tx flags send_id cmd args).data = cmd :: args ∧
    (run_command_resp (E := E) interface flags send_id cmd args false).2
      = [TransportCall.send_data [build_tx flags send_id cmd args] 0] ∧
    (interface.send_data [build_tx flags send_id cmd args] 0 = Except.ok ()
      → (run_command_resp (E := E) interface flags send_id cmd args false).1
          = RunResult.ok []) ∧
    (∀ e, interface.send_data [build_tx flags send_id cmd args] 0 = Except.error e
      → (run_command_resp (E := E) interface flags send_id cmd args false).1
          = RunResult.err (ProtocolError.CommError e)) := by
  refine ⟨by cases flags <;> rfl, ?_, ?_, ?_⟩
  · unfold run_command_resp
    cases h : interface.send_data [build_tx flags send_id cmd args] 0 <;> simp [h]
  · intro h
    unfold run_command_resp
    simp [h]
  · intro e h
    unfold run_command_resp
    simp [h]

/-- Closed instantiation of `runCommandResp_fire_and_forget`: a succeeding
mock send yields `Ok []` and a failing one yields `CommError`. -/
theorem runCommandResp_fire_and_forget_witness :
    (run_command_resp (E := GenericNRC) (mockInterface ⟨0, [], []⟩ [])
        none 0x7E0 0x3E [0x01] false).1 = RunResult.ok [] ∧
    (run_command_resp (E := GenericNRC) (failingInterface ⟨"bus off"⟩)
        none 0x7E0 0x3E [0x01] false).1
      = RunResult.err (ProtocolError.CommError ⟨"bus off"⟩) :=
  ⟨(runCommandResp_fire_and_forget (mockInterface ⟨0, [], []⟩ [])
      none 0x7E0 0x3E [0x01]).2.2.1 rfl,
   (runCommandResp_fire_and_forget (failingInterface ⟨"bus off"⟩)
      none 0x7E0 0x3E [0x01]).2.2.2 ⟨"bus off"⟩ rfl⟩

/-- C8: the `From<ComServerError>` conversion into `ProtocolError` is
injective (loses no information), and `get_text` on the converted value
reproduces the transport failure's own message text. -/
theorem protocolError_from_comm_roundtrip {E : Type} [CommandError E] :
    (∀ a b : ComServerError,
      ProtocolError.fromComServerError (E := E) a = ProtocolError.fromComServerError b
        → a = b) ∧
    (∀ e : ComServerError,
      (ProtocolError.fromComServerError (E := E) e).get_text = e.to_string) := by
  constructor
  · intro a b h
    simpa [ProtocolError.fromComServerError] using h
  · intro e
    rfl

/-- Closed instantiation of `protocolError_from_comm_roundtrip` at a
concrete transport failure. -/
theorem protocolError_from_comm_roundtrip_witness :
    (ProtocolError.fromComServerError (E := GenericNRC) ⟨"usb disconnected"⟩).get_text
      = "usb disconnected" ∧
    (⟨"usb disconnected"⟩ : ComServerError) = ⟨"usb disconnected"⟩ :=
  ⟨(protocolError_from_comm_roundtrip (E := GenericNRC)).2 ⟨"usb disconnected"⟩,
   (protocolError_from_comm_roundtrip (E := GenericNRC)).1 ⟨"usb disconnected"⟩
     ⟨"usb disconnected"⟩ rfl⟩

/-- C5 (failing input): the byte-indexing of the negative-response check is
unguarded: a transport reply of the single byte `0x7F` makes
`run_command_resp` perform an out-of-range `Vec` access (a Rust panic)
instead of surfacing any `ProtocolError` such as `InvalidResponseSize`. -/
theorem runCommandResp_short_response_panics :
    (run_command_resp (E := GenericNRC) (mockInterface ⟨0, [0x7F], []⟩ [])
        none 0x7E0 0x10 [] true).1 = RunResult.panic ∧
    (run_command_resp (E := GenericNRC) (mockInterface ⟨0, [], []⟩ [])
        none 0x7E0 0x10 [] true).1 = RunResult.panic := by
  decide

/-- C6 (counterexample): a lifetime with one explicit `kill_diag_server`
call followed by destruction invokes `exit_diag_session` twice, not
exactly once as claimed — `Drop` unconditionally calls `kill_diag_server`
again. -/
theorem lifetime_exit_calls_explicit_kill_twice :
    lifetime_exit_calls 1 = 2 ∧ lifetime_exit_calls 1 ≠ 1 := by
  decide

/-- C6 (amended): over a lifetime with `k` explicit `kill_diag_server`
calls followed by destruction, `exit_diag_session` is invoked exactly
`k + 1` times — exactly once when the caller never explicitly kills, and
never zero on any exit path, but more than once when the caller explicitly
kills before destruction. -/
theorem lifetime_exit_calls_count (k : Nat) :
    lifetime_exit_calls k = k + 1 ∧ 1 ≤ lifetime_exit_calls k := by
  have h : Nat.iterate kill_diag_server k 0 = k := by
    induction k with
    | zero => rfl
    | succ n ih =>
        rw [Function.iterate_succ_apply', ih]
        rfl
  constructor
  · unfold lifetime_exit_calls
    rw [h]
    rfl
  · unfold lifetime_exit_calls
    rw [h]
    simp [drop_diag_server, kill_diag_server]

/-- C1 (counterexample): for opcode `0x3F` the expected positive-response
echo `(0x3F + 0x40) % 256` equals the negative-response marker `0x7F`, so
a reply whose first byte equals the echo is treated as a negative response
and `run_command_resp` does not return `Ok` with the response bytes. -/
theorem runCommandResp_echo_collision_at_3F :
    (0x3F + 0x40) % 256 = 0x7F ∧
    (run_command_resp (E := GenericNRC) (mockInterface ⟨0, [0x7F, 0x3F, 0x22], []⟩ [])
        none 0x7E0 0x3F [] true).1 ≠ RunResult.ok [0x7F, 0x3F, 0x22] ∧
    (run_command_resp (E := GenericNRC) (mockInterface ⟨0, [0x7F, 0x3F, 0x22], []⟩ [])
        none 0x7E0 0x3F [] true).1
      = RunResult.err (ProtocolError.ProtocolError ⟨0x22⟩) := by
  decide

/-- C1 (amended): whenever the wrapped echo `(cmd + 0x40) % 256` differs
from the negative-response marker `0x7F`, a (possibly follow-up) response
whose first byte equals the echo makes `run_command_resp` return `Ok` with
the full response bytes; this covers opcodes `≥ 0xC0`, whose echo wraps
around `0x100`. -/
theorem runCommandResp_positive_echo {E : Type} [CommandError E]
    (interface : Interface) (flags : Option (List PayloadFlag))
    (send_id cmd : Nat) (args : List Nat) (res₁ final : InterfacePayload)
    (hne : (cmd + 0x40) % 256 ≠ 0x7F)
    (hsr : interface.send_recv_data (build_tx flags send_id cmd args) 0 2000
      = Except.ok res₁)
    (hcase :
      (res₁.data[0]? = some ((cmd + 0x40) % 256) ∧ final = res₁) ∨
      (res₁.data[0]? = some 0x7F ∧ res₁.data[2]? = some 0x78 ∧
        ∃ l, interface.recv_data 1 2000 = Except.ok l ∧ l[0]? = some final ∧
          final.data[0]? = some ((cmd + 0x40) % 256))) :
    (run_command_resp (E := E) interface flags send_id cmd args true).1
      = RunResult.ok final.data := by
  rcases hcase with ⟨h0, rfl⟩ | ⟨h0, h2, l, hrecv, hl0, hf0⟩
  · simp [run_command_resp, checkResponse, hsr, h0, hne]
  · simp [run_command_resp, checkResponse, hsr, h0, h2, hrecv, hl0, hf0, hne]

/-- Closed instantiation of `runCommandResp_positive_echo` at the
wraparound opcode `0xC2`, whose echo is `0x02`. -/
theorem runCommandResp_positive_echo_witness :
    (run_command_resp (E := GenericNRC) (mockInterface ⟨0, [0x02, 0xAA], []⟩ [])
        none 0x7E0 0xC2 [] true).1 = RunResult.ok [0x02, 0xAA] :=
  runCommandResp_positive_echo (mockInterface ⟨0, [0x02, 0xAA], []⟩ []) none 0x7E0 0xC2 []
    ⟨0, [0x02, 0xAA], []⟩ ⟨0, [0x02, 0xAA], []⟩ (by decide) rfl
    (Or.inl ⟨by decide, rfl⟩)

/-- C2: when the first reply is a response-pending negative response
(byte 0 `0x7F`, byte 2 `0x78`) and the follow-up receive succeeds, the
transport trace is exactly one send-and-wait plus one follow-up wait with
a 2000 ms budget; a delivered follow-up frame is evaluated in place of
the first response (by the common response checks), and an empty
follow-up delivery fails with `ProtocolError` decoding the pending byte
`0x78` itself. -/
theorem runCommandResp_pending_continuation {E : Type} [CommandError E]
    (interface : Interface) (flags : Option (List PayloadFlag))
    (send_id cmd : Nat) (args : List Nat) (res₁ : InterfacePayload)
    (l : List InterfacePayload)
    (hsr : interface.send_recv_data (build_tx flags send_id cmd args) 0 2000
      = Except.ok res₁)
    (h0 : res₁.data[0]? = some 0x7F) (h2 : res₁.data[2]? = some 0x78)
    (hrecv : interface.recv_data 1 2000 = Except.ok l) :
    (run_command_resp (E := E) interface flags send_id cmd args true).2
      = [TransportCall.send_recv_data (build_tx flags send_id cmd args) 0 2000,
         TransportCall.recv_data 1 2000] ∧
    (∀ d, l[0]? = some d →
      (run_command_resp (E := E) interface flags send_id cmd args true).1
        = checkResponse cmd d) ∧
    (l[0]? = none →
      (run_command_resp (E := E) interface flags send_id cmd args true).1
        = RunResult.err (ProtocolError.ProtocolError (CommandError.from_byte 0x78))) := by
  refine ⟨?_, ?_, ?_⟩
  · cases hl : l[0]? <;>
      simp [run_command_resp, hsr, h0, h2, hrecv, hl]
  · intro d hl
    simp [run_command_resp, hsr, h0, h2, hrecv, hl]
  · intro hl
    simp [run_command_resp, hsr, h0, h2, hrecv, hl]

/-- Closed instantiation of `runCommandResp_pending_continuation`: the
spec's pending scenario (`0x10`, first reply `[0x7F, 0x10, 0x78]`,
follow-up `[0x50, 0x10]`) yields `Ok [0x50, 0x10]`, and the same first
reply with no follow-up yields `ProtocolError` decoding `0x78`. -/
theorem runCommandResp_pending_continuation_witness :
    (run_command_resp (E := GenericNRC)
        (mockInterface ⟨0, [0x7F, 0x10, 0x78], []⟩ [⟨0, [0x50, 0x10], []⟩])
        none 0x7E0 0x10 [] true).1 = RunResult.ok [0x50, 0x10] ∧
    (run_command_resp (E := GenericNRC)
        (mockInterface ⟨0, [0x7F, 0x10, 0x78], []⟩ [])
        none 0x7E0 0x10 [] true).1
      = RunResult.err (ProtocolError.ProtocolError ⟨0x78⟩) :=
  ⟨((runCommandResp_pending_continuation
      (mockInterface ⟨0, [0x7F, 0x10, 0x78], []⟩ [⟨0, [0x50, 0x10], []⟩])
      none 0x7E0 0x10 [] ⟨0, [0x7F, 0x10, 0x78], []⟩ [⟨0, [0x50, 0x10], []⟩]
      rfl rfl rfl rfl).2.1 ⟨0, [0x50, 0x10], []⟩ rfl).trans (by decide),
   (runCommandResp_pending_continuation
      (mockInterface ⟨0, [0x7F, 0x10, 0x78], []⟩ [])
      none 0x7E0 0x10 [] ⟨0, [0x7F, 0x10, 0x78], []⟩ []
      rfl rfl rfl rfl).2.2 rfl⟩

/-- C3: a (possibly follow-up) response whose first byte is the
negative-response marker `0x7F` — outside the pending continuation case —
makes `run_command_resp` fail with `ProtocolError.ProtocolError` carrying
`CommandError.from_byte` of the response's third byte (the NRC). -/
theorem runCommandResp_negative_decodes_nrc {E : Type} [CommandError E]
    (interface : Interface) (flags : Option (List PayloadFlag))
    (send_id cmd : Nat) (args : List Nat) (res₁ final : InterfacePayload) (nrc : Nat)
    (hsr : interface.send_recv_data (build_tx flags send_id cmd args) 0 2000
      = Except.ok res₁)
    (hcase :
      (res₁.data[0]? = some 0x7F ∧ res₁.data[2]? = some nrc ∧ nrc ≠ 0x78 ∧
        final = res₁) ∨
      (res₁.data[0]? = some 0x7F ∧ res₁.data[2]? = some 0x78 ∧
        ∃ l, interface.recv_data 1 2000 = Except.ok l ∧ l[0]? = some final ∧
          final.data[0]? = some 0x7F ∧ final.data[2]? = some nrc)) :
    (run_command_resp (E := E) interface flags send_id cmd args true).1
      = RunResult.err (ProtocolError.ProtocolError (CommandError.from_byte nrc)) := by
  rcases hcase with ⟨h0, h2, hne, rfl⟩ | ⟨h0, h2, l, hrecv, hl0, hf0, hf2⟩
  · simp [run_command_resp, checkResponse, hsr, h0, h2, hne]
  · simp [run_command_resp, checkResponse, hsr, h0, h2, hrecv, hl0, hf0, hf2]

/-- Closed instantiation of `runCommandResp_negative_decodes_nrc`: the
spec's negative-after-pending scenario (first reply `[0x7F, 0x10, 0x78]`,
follow-up `[0x7F, 0x10, 0x22]`) decodes NRC `0x22`. -/
theorem runCommandResp_negative_decodes_nrc_witness :
    (run_command_resp (E := GenericNRC)
        (mockInterface ⟨0, [0x7F, 0x10, 0x78], []⟩ [⟨0, [0x7F, 0x10, 0x22], []⟩])
        none 0x7E0 0x10 [] true).1
      = RunResult.err (ProtocolError.ProtocolError ⟨0x22⟩) :=
  runCommandResp_negative_decodes_nrc
    (mockInterface ⟨0, [0x7F, 0x10, 0x78], []⟩ [⟨0, [0x7F, 0x10, 0x22], []⟩])
    none 0x7E0 0x10 [] ⟨0, [0x7F, 0x10, 0x78], []⟩ ⟨0, [0x7F, 0x10, 0x22], []⟩ 0x22
    rfl
    (Or.inr ⟨rfl, rfl, [⟨0, [0x7F, 0x10, 0x22], []⟩], rfl, rfl, rfl, rfl⟩)

/-- C4: a (possibly follow-up) response whose first byte is neither the
negative-response marker `0x7F` nor the expected echo `(cmd + 0x40) % 256`
makes `run_command_resp` fail with exactly `ProtocolError.Timeout`. -/
theorem runCommandResp_uncorrelated_timeout {E : Type} [CommandError E]
    (interface : Interface) (flags : Option (List PayloadFlag))
    (send_id cmd : Nat) (args : List Nat) (res₁ final : InterfacePayload) (b0 : Nat)
    (hb7f : b0 ≠ 0x7F) (hbecho : b0 ≠ (cmd + 0x40) % 256)
    (hsr : interface.send_recv_data (build_tx flags send_id cmd args) 0 2000
      = Except.ok res₁)
    (hcase :
      (res₁.data[0]? = some b0 ∧ final = res₁) ∨
      (res₁.data[0]? = some 0x7F ∧ res₁.data[2]? = some 0x78 ∧
        ∃ l, interface.recv_data 1 2000 = Except.ok l ∧ l[0]? = some final ∧
          final.data[0]? = some b0)) :
    (run_command_resp (E := E) interface flags send_id cmd args true).1
      = RunResult.err ProtocolError.Timeout := by
  rcases hcase with ⟨h0, rfl⟩ | ⟨h0, h2, l, hrecv, hl0, hf0⟩
  · simp [run_command_resp, checkResponse, hsr, h0, hb7f, hbecho]
  · simp [run_command_resp, checkResponse, hsr, h0, h2, hrecv, hl0, hf0, hb7f, hbecho]

/-- Closed instantiation of `runCommandResp_uncorrelated_timeout`: the
spec's mismatched-echo scenario (`0x3E` answered by `[0x51, 0x00]`)
yields `Timeout`. -/
theorem runCommandResp_uncorrelated_timeout_witness :
    (run_command_resp (E := GenericNRC) (mockInterface ⟨0, [0x51, 0x00], []⟩ [])
        none 0x7E0 0x3E [] true).1 = RunResult.err ProtocolError.Timeout :=
  runCommandResp_uncorrelated_timeout (mockInterface ⟨0, [0x51, 0x00], []⟩ [])
    none 0x7E0 0x3E [] ⟨0, [0x51, 0x00], []⟩ ⟨0, [0x51, 0x00], []⟩ 0x51
    (by decide) (by decide) rfl (Or.inl ⟨rfl, rfl⟩)

/-- C10: `run_command_resp` performs at most one pending-continuation
wait: when the follow-up frame received after a response-pending reply
itself begins with `0x7F` — its third byte being any NRC, `0x78`
included — the transport trace is exactly one send-and-wait plus one
follow-up wait (no second wait), and the result is immediately
`ProtocolError.ProtocolError` decoding the follow-up's third byte. -/
theorem runCommandResp_single_pending_wait {E : Type} [CommandError E]
    (interface : Interface) (flags : Option (List PayloadFlag))
    (send_id cmd : Nat) (args : List Nat) (res₁ final : InterfacePayload)
    (l : List InterfacePayload) (nrc : Nat)
    (hsr : interface.send_recv_data (build_tx flags send_id cmd args) 0 2000
      = Except.ok res₁)
    (h0 : res₁.data[0]? = some 0x7F) (h2 : res₁.data[2]? = some 0x78)
    (hrecv : interface.recv_data 1 2000 = Except.ok l) (hl0 : l[0]? = some final)
    (hf0 : final.data[0]? = some 0x7F) (hf2 : final.data[2]? = some nrc) :
    (run_command_resp (E := E) interface flags send_id cmd args true).1
      = RunResult.err (ProtocolError.ProtocolError (CommandError.from_byte nrc)) ∧
    (run_command_resp (E := E) interface flags send_id cmd args true).2
      = [TransportCall.send_recv_data (build_tx flags send_id cmd args) 0 2000,
         TransportCall.recv_data 1 2000] := by
  constructor
  · simp [run_command_resp, checkResponse, hsr, h0, h2, hrecv, hl0, hf0, hf2]
  · simp [run_command_resp, hsr, h0, h2, hrecv, hl0]

/-- Closed instantiation of `runCommandResp_single_pending_wait` where the
follow-up is itself a second response-pending frame `[0x7F, 0x10, 0x78]`:
no second wait happens and the pending NRC `0x78` is decoded as the
failure. -/
theorem runCommandResp_single_pending_wait_witness :
    (run_command_resp (E := GenericNRC)
        (mockInterface ⟨0, [0x7F, 0x10, 0x78], []⟩ [⟨0, [0x7F, 0x10, 0x78], []⟩])
        none 0x7E0 0x10 [] true).1
      = RunResult.err (ProtocolError.ProtocolError ⟨0x78⟩) ∧
    (run_command_resp (E := GenericNRC)
        (mockInterface ⟨0, [0x7F, 0x10, 0x78], []⟩ [⟨0, [0x7F, 0x10, 0x78], []⟩])
        none 0x7E0 0x10 [] true).2
      = [TransportCall.send_recv_data (build_tx none 0x7E0 0x10 []) 0 2000,
         TransportCall.recv_data 1 2000] :=
  runCommandResp_single_pending_wait
    (mockInterface ⟨0, [0x7F, 0x10, 0x78], []⟩ [⟨0, [0x7F, 0x10, 0x78], []⟩])
    none 0x7E0 0x10 [] ⟨0, [0x7F, 0x10, 0x78], []⟩ ⟨0, [0x7F, 0x10, 0x78], []⟩
    [⟨0, [0x7F, 0x10, 0x78], []⟩] 0x78
    rfl rfl rfl rfl rfl rfl rfl
